import Mathlib

/-!
# Asset services of the Binance client (v2/asset_detail_service.go)

A shallow embedding of the four request builders of
`v2/asset_detail_service.go` and of their terminal `Do` methods.

* A builder is a structure holding the Go struct's fields other than the
  client pointer `c`; the pointee of `c` (the transport) is an explicit
  argument of `Do`.
* `Do` is state passing: it returns the builder after the call, the two Go
  results `res` and `err`, and the list of calls it made to its two
  collaborators (`callAPI`, `json.Unmarshal`) in program order.
* The transport and the JSON decoder are parameters: any function of the
  right shape may stand for them.
* A Go pointer-to-string is `Option String`; a Go map or slice is an
  `Option` of a list, `none` being the nil map / nil slice.
-/

set_option linter.dupNamespace false

namespace Binance

/-! ## Go values -/

/-- Raw bytes, the Go type `[]byte`. -/
abbrev Bytes := List UInt8

/-- A non-nil value of the Go interface `error`. The Go result `err` is an
`Option GoError`, `none` being `nil`. -/
structure GoError where
  msg : String
deriving DecidableEq, Repr

/-- The `context.Context` argument, passed through to the transport. -/
structure Context where
  id : Nat
deriving DecidableEq, Repr

/-- A Go slice: `none` is the nil slice, `some xs` a non-nil slice. -/
abbrev GoSlice (α : Type) := Option (List α)

/-- A Go map with string keys: `none` is the nil map, `some kvs` a map made
with `make`, holding the entries `kvs`. -/
abbrev GoMap (α : Type) := Option (List (String × α))

/-- Length of a Go slice, `len(xs)`; the nil slice has length 0. -/
def GoSlice.len {α : Type} : GoSlice α → Nat
  | none => 0
  | some xs => xs.length

/-! ## Request descriptor -/

/-- Modelled from the spec: the security classification of a request,
"enumerated {NONE, SIGNED, API-KEY-ONLY}"; the source names the constant
`secTypeSigned`, its declaration is in the client. -/
inductive SecType where
  | secTypeNone
  | secTypeAPIKey
  | secTypeSigned
deriving DecidableEq, Repr

/-- A value given to `setParam`: the source passes strings, an `int64` and a
`bool`. -/
inductive ParamValue where
  | str (s : String)
  | int (n : Int)
  | bool (b : Bool)
deriving DecidableEq, Repr

/-- Modelled from the spec: the request descriptor, "method, endpoint path,
security classification, and a mapping of parameter names to values". The
source builds it with the fields `method`, `endpoint` and `secType`; the
parameters start empty. -/
structure Request where
  method : String
  endpoint : String
  secType : SecType
  params : List (String × ParamValue) := []
deriving DecidableEq, Repr

/-- The constant `http.MethodGet`. -/
def MethodGet : String := "GET"

/-- The constant `http.MethodPost`. -/
def MethodPost : String := "POST"

/-- Modelled from the spec: `request.setParam`, declared in the client.
"mapping from parameter name to value; insertion order irrelevant, keys
unique, last write wins if a setter is called twice". -/
def Request.setParam (r : Request) (key : String) (value : ParamValue) : Request :=
  { r with params := (r.params.filter (fun p => p.1 != key)) ++ [(key, value)] }

/-- The value of parameter `key` in the request, if it is attached. -/
def Request.getParam (r : Request) (key : String) : Option ParamValue :=
  r.params.lookup key

/-! ## Collaborators -/

/-- The client behind the builder's pointer `c`: `callAPI(ctx, r)` returns
the response bytes and an error. -/
structure Client where
  callAPI : Context → Request → Bytes × Option GoError

/-- The decoder `json.Unmarshal(data, &res)` at result type `α`: from the
bytes and the current value of `res` it gives the value left in `res` and
the error. -/
abbrev Unmarshal (α : Type) := Bytes → α → α × Option GoError

/-- A call made by `Do` to one of its collaborators. -/
inductive Event where
  | callAPI (ctx : Context) (r : Request)
  | unmarshal (data : Bytes)
deriving DecidableEq, Repr

/-- What a `Do` call leaves behind: the builder, the Go results `res` and
`err`, and the collaborator calls in program order. -/
structure DoResult (σ α : Type) where
  builder : σ
  res : α
  err : Option GoError
  trace : List Event

/-- The requests handed to the transport, in order. -/
def DoResult.requests {σ α : Type} (d : DoResult σ α) : List Request :=
  d.trace.filterMap (fun e => match e with
    | Event.callAPI _ r => some r
    | Event.unmarshal _ => none)

/-- The byte strings handed to the decoder, in order. -/
def DoResult.decoded {σ α : Type} (d : DoResult σ α) : List Bytes :=
  d.trace.filterMap (fun e => match e with
    | Event.callAPI _ _ => none
    | Event.unmarshal data => some data)

/-! ## Response types -/

/-- The struct `AssetDetail`. -/
structure AssetDetail where
  MinWithdrawAmount : String
  DepositStatus : Bool
  WithdrawFee : String
  WithdrawStatus : Bool
  DepositTip : String
deriving DecidableEq, Repr

/-- The struct `Network`. -/
structure Network where
  AddressRegex : String
  Coin : String
  DepositDesc : String
  DepositEnable : Bool
  IsDefault : Bool
  MemoRegex : String
  MinConfirm : Int
  Name : String
  Network : String
  ResetAddressStatus : Bool
  SpecialTips : String
  UnLockConfirm : Int
  WithdrawDesc : String
  WithdrawEnable : Bool
  WithdrawFee : String
  WithdrawIntegerMultiple : String
  WithdrawMax : String
  WithdrawMin : String
  SameAddress : Bool
deriving DecidableEq, Repr

/-- The struct `CoinInfo`. -/
structure CoinInfo where
  Coin : String
  DepositAllEnable : Bool
  Free : String
  Freeze : String
  Ipoable : String
  Ipoing : String
  IsLegalMoney : Bool
  Locked : String
  Name : String
  NetworkList : GoSlice Network
  Storage : String
  Trading : Bool
  WithdrawAllEnable : Bool
  Withdrawing : String
deriving DecidableEq, Repr

/-- The struct `UserAssetRecord`. -/
structure UserAssetRecord where
  Asset : String
  Free : String
  Locked : String
  Freeze : String
  Withdrawing : String
  Ipoable : String
  BtcValuation : String
deriving DecidableEq, Repr

/-- The struct `ConvertTransferResponse`; `TranId` is an `int64`. -/
structure ConvertTransferResponse where
  TranId : Int
  Status : String
deriving DecidableEq, Repr

/-- The zero value of `ConvertTransferResponse`, the initial value of the
named result `res`. -/
def ConvertTransferResponse.zero : ConvertTransferResponse :=
  { TranId := 0, Status := "" }

/-! ## GetAssetDetailService -/

/-- The struct `GetAssetDetailService` without its client pointer. -/
structure GetAssetDetailService where
  asset : Option String
deriving DecidableEq, Repr

/-- The setter `Asset`: `s.asset = &asset`. -/
def GetAssetDetailService.Asset (s : GetAssetDetailService) (asset : String) :
    GetAssetDetailService :=
  { s with asset := some asset }

/-- The method `GetAssetDetailService.Do`. -/
def GetAssetDetailService.Do (s : GetAssetDetailService) (c : Client)
    (json : Unmarshal (GoMap AssetDetail)) (ctx : Context) :
    DoResult GetAssetDetailService (GoMap AssetDetail) :=
  let r : Request :=
    { method := MethodGet, endpoint := "/sapi/v1/asset/assetDetail",
      secType := SecType.secTypeSigned }
  let r : Request :=
    match s.asset with
    | some a => r.setParam "asset" (ParamValue.str a)
    | none => r
  let out := c.callAPI ctx r
  let data := out.1
  match out.2 with
  | some e => ⟨s, none, some e, [Event.callAPI ctx r]⟩
  | none =>
    let res : GoMap AssetDetail := some []
    let dec := json data res
    match dec.2 with
    | some e => ⟨s, dec.1, some e, [Event.callAPI ctx r, Event.unmarshal data]⟩
    | none => ⟨s, dec.1, none, [Event.callAPI ctx r, Event.unmarshal data]⟩

/-! ## GetAllCoinsInfoService -/

/-- The struct `GetAllCoinsInfoService` without its client pointer. -/
structure GetAllCoinsInfoService where
  asset : Option String
deriving DecidableEq, Repr

/-- The method `GetAllCoinsInfoService.Do`. An element of the result is a
pointer to a `CoinInfo`, `none` being the nil pointer. -/
def GetAllCoinsInfoService.Do (s : GetAllCoinsInfoService) (c : Client)
    (json : Unmarshal (GoSlice (Option CoinInfo))) (ctx : Context) :
    DoResult GetAllCoinsInfoService (GoSlice (Option CoinInfo)) :=
  let r : Request :=
    { method := MethodGet, endpoint := "/sapi/v1/capital/config/getall",
      secType := SecType.secTypeSigned }
  let out := c.callAPI ctx r
  let data := out.1
  match out.2 with
  | some e => ⟨s, some [], some e, [Event.callAPI ctx r]⟩
  | none =>
    let res : GoSlice (Option CoinInfo) := some []
    let dec := json data res
    match dec.2 with
    | some e => ⟨s, some [], some e, [Event.callAPI ctx r, Event.unmarshal data]⟩
    | none => ⟨s, dec.1, none, [Event.callAPI ctx r, Event.unmarshal data]⟩

/-! ## GetUserAssetService -/

/-- The struct `GetUserAssetService` without its client pointer. -/
structure GetUserAssetService where
  asset : Option String
  needBtcValuation : Bool
deriving DecidableEq, Repr

/-- The setter `Asset`: `s.asset = &asset`. -/
def GetUserAssetService.Asset (s : GetUserAssetService) (asset : String) :
    GetUserAssetService :=
  { s with asset := some asset }

/-- The setter `NeedBtcValuation`: `s.needBtcValuation = val`. -/
def GetUserAssetService.NeedBtcValuation (s : GetUserAssetService) (val : Bool) :
    GetUserAssetService :=
  { s with needBtcValuation := val }

/-- The method `GetUserAssetService.Do`. The named result `res` starts as
the nil slice. -/
def GetUserAssetService.Do (s : GetUserAssetService) (c : Client)
    (json : Unmarshal (GoSlice UserAssetRecord)) (ctx : Context) :
    DoResult GetUserAssetService (GoSlice UserAssetRecord) :=
  let r : Request :=
    { method := MethodPost, endpoint := "/sapi/v3/asset/getUserAsset",
      secType := SecType.secTypeSigned }
  let r : Request :=
    match s.asset with
    | some a => r.setParam "asset" (ParamValue.str a)
    | none => r
  let r : Request :=
    if s.needBtcValuation then r.setParam "needBtcValuation" (ParamValue.bool s.needBtcValuation)
    else r
  let out := c.callAPI ctx r
  let data := out.1
  match out.2 with
  | some e => ⟨s, none, some e, [Event.callAPI ctx r]⟩
  | none =>
    let dec := json data none
    ⟨s, dec.1, dec.2, [Event.callAPI ctx r, Event.unmarshal data]⟩

/-! ## ConvertTransferService -/

/-- The struct `ConvertTransferService` without its client pointer;
`amount` is an `int64`. -/
structure ConvertTransferService where
  clientTranId : String
  asset : String
  amount : Int
  targetAsset : String
  accountType : Option String
deriving DecidableEq, Repr

/-- The setter `ClientTranId`. -/
def ConvertTransferService.ClientTranId (s : ConvertTransferService) (clientTranId : String) :
    ConvertTransferService :=
  { s with clientTranId := clientTranId }

/-- The setter `Asset`. -/
def ConvertTransferService.Asset (s : ConvertTransferService) (asset : String) :
    ConvertTransferService :=
  { s with asset := asset }

/-- The setter `Amount`. -/
def ConvertTransferService.Amount (s : ConvertTransferService) (amount : Int) :
    ConvertTransferService :=
  { s with amount := amount }

/-- The setter `TargetAsset`. -/
def ConvertTransferService.TargetAsset (s : ConvertTransferService) (targetAsset : String) :
    ConvertTransferService :=
  { s with targetAsset := targetAsset }

/-- The setter `AccountType`: `s.accountType = &accountType`. -/
def ConvertTransferService.AccountType (s : ConvertTransferService) (accountType : String) :
    ConvertTransferService :=
  { s with accountType := some accountType }

/-- The method `ConvertTransferService.Do`. The named result `res` starts
as the zero struct. -/
def ConvertTransferService.Do (s : ConvertTransferService) (c : Client)
    (json : Unmarshal ConvertTransferResponse) (ctx : Context) :
    DoResult ConvertTransferService ConvertTransferResponse :=
  let r : Request :=
    { method := MethodPost, endpoint := "/sapi/v1/asset/convert",
      secType := SecType.secTypeSigned }
  let r := r.setParam "clientTranId" (ParamValue.str s.clientTranId)
  let r := r.setParam "asset" (ParamValue.str s.asset)
  let r := r.setParam "amount" (ParamValue.int s.amount)
  let r := r.setParam "targetAsset" (ParamValue.str s.targetAsset)
  let r : Request :=
    match s.accountType with
    | some a => r.setParam "accountType" (ParamValue.str a)
    | none => r
  let out := c.callAPI ctx r
  let data := out.1
  match out.2 with
  | some e => ⟨s, ConvertTransferResponse.zero, some e, [Event.callAPI ctx r]⟩
  | none =>
    let dec := json data ConvertTransferResponse.zero
    ⟨s, dec.1, dec.2, [Event.callAPI ctx r, Event.unmarshal data]⟩

/-! ## Setter calls

A builder is configured by a sequence of setter calls. Each service has an
inductive type of calls, one constructor per setter of the source, and
`calls` applies a sequence from left to right. -/

/-- Modelled from the spec: the constructor of the builder lives with the
owning client; a new builder has every optional field unset. -/
def GetAssetDetailService.new : GetAssetDetailService :=
  { asset := none }

/-- A setter call on a `GetAssetDetailService`. -/
inductive GetAssetDetailCall where
  | Asset (asset : String)
deriving DecidableEq, Repr

/-- One setter call. -/
def GetAssetDetailService.call (s : GetAssetDetailService) :
    GetAssetDetailCall → GetAssetDetailService
  | GetAssetDetailCall.Asset a => s.Asset a

/-- A sequence of setter calls, applied in order. -/
def GetAssetDetailService.calls (s : GetAssetDetailService)
    (cs : List GetAssetDetailCall) : GetAssetDetailService :=
  cs.foldl GetAssetDetailService.call s

/-- Modelled from the spec: the constructor of the builder lives with the
owning client; a new builder has `asset` unset and the flag false, the Go
zero value. -/
def GetUserAssetService.new : GetUserAssetService :=
  { asset := none, needBtcValuation := false }

/-- A setter call on a `GetUserAssetService`. -/
inductive GetUserAssetCall where
  | Asset (asset : String)
  | NeedBtcValuation (val : Bool)
deriving DecidableEq, Repr

/-- One setter call. -/
def GetUserAssetService.call (s : GetUserAssetService) :
    GetUserAssetCall → GetUserAssetService
  | GetUserAssetCall.Asset a => s.Asset a
  | GetUserAssetCall.NeedBtcValuation b => s.NeedBtcValuation b

/-- A sequence of setter calls, applied in order. -/
def GetUserAssetService.calls (s : GetUserAssetService)
    (cs : List GetUserAssetCall) : GetUserAssetService :=
  cs.foldl GetUserAssetService.call s

/-- Modelled from the spec: the constructor of the builder lives with the
owning client; a new builder has the Go zero value in every field, "empty
string / zero", and `accountType` unset. -/
def ConvertTransferService.new : ConvertTransferService :=
  { clientTranId := "", asset := "", amount := 0, targetAsset := "", accountType := none }

/-- A setter call on a `ConvertTransferService`. -/
inductive ConvertTransferCall where
  | ClientTranId (clientTranId : String)
  | Asset (asset : String)
  | Amount (amount : Int)
  | TargetAsset (targetAsset : String)
  | AccountType (accountType : String)
deriving DecidableEq, Repr

/-- One setter call. -/
def ConvertTransferService.call (s : ConvertTransferService) :
    ConvertTransferCall → ConvertTransferService
  | ConvertTransferCall.ClientTranId v => s.ClientTranId v
  | ConvertTransferCall.Asset v => s.Asset v
  | ConvertTransferCall.Amount v => s.Amount v
  | ConvertTransferCall.TargetAsset v => s.TargetAsset v
  | ConvertTransferCall.AccountType v => s.AccountType v

/-- A sequence of setter calls, applied in order. -/
def ConvertTransferService.calls (s : ConvertTransferService)
    (cs : List ConvertTransferCall) : ConvertTransferService :=
  cs.foldl ConvertTransferService.call s

/-- The argument of the last call in `cs` that `pick` selects, if any. -/
def lastCall {κ β : Type} (pick : κ → Option β) (cs : List κ) : Option β :=
  cs.reverse.findSome? pick

/-- The parameter map the specification gives for a convert-transfer
request: the four required parameters with the builder's field values, and
`accountType` when it is set; no other key. -/
def ConvertTransferService.specParams (s : ConvertTransferService) (k : String) :
    Option ParamValue :=
  if k = "clientTranId" then some (ParamValue.str s.clientTranId)
  else if k = "asset" then some (ParamValue.str s.asset)
  else if k = "amount" then some (ParamValue.int s.amount)
  else if k = "targetAsset" then some (ParamValue.str s.targetAsset)
  else if k = "accountType" then s.accountType.map ParamValue.str
  else none

/-- The parameter map the specification gives for a user-asset request:
`asset` when it is set, `needBtcValuation` with value true when the flag is
true; no other key. -/
def GetUserAssetService.specParams (s : GetUserAssetService) (k : String) :
    Option ParamValue :=
  if k = "asset" then s.asset.map ParamValue.str
  else if k = "needBtcValuation" then
    (if s.needBtcValuation = true then some (ParamValue.bool true) else none)
  else none

/-- Selects the argument of an `AccountType` call. -/
def ConvertTransferCall.pickAccountType : ConvertTransferCall → Option String
  | ConvertTransferCall.AccountType v => some v
  | _ => none

/-- Selects the argument of a `ClientTranId` call. -/
def ConvertTransferCall.pickClientTranId : ConvertTransferCall → Option String
  | ConvertTransferCall.ClientTranId v => some v
  | _ => none

/-- Selects the argument of an `Asset` call. -/
def ConvertTransferCall.pickAsset : ConvertTransferCall → Option String
  | ConvertTransferCall.Asset v => some v
  | _ => none

/-- Selects the argument of an `Amount` call. -/
def ConvertTransferCall.pickAmount : ConvertTransferCall → Option Int
  | ConvertTransferCall.Amount v => some v
  | _ => none

/-- Selects the argument of a `TargetAsset` call. -/
def ConvertTransferCall.pickTargetAsset : ConvertTransferCall → Option String
  | ConvertTransferCall.TargetAsset v => some v
  | _ => none

/-- Selects the argument of an `Asset` call. -/
def GetUserAssetCall.pickAsset : GetUserAssetCall → Option String
  | GetUserAssetCall.Asset v => some v
  | _ => none

/-- Selects the argument of a `NeedBtcValuation` call. -/
def GetUserAssetCall.pickNeedBtcValuation : GetUserAssetCall → Option Bool
  | GetUserAssetCall.NeedBtcValuation v => some v
  | _ => none

/-! ## Test doubles

Concrete transports and decoders, used to run `Do` on explicit inputs. -/

/-- The bytes of a string literal. -/
def bytesOf (s : String) : Bytes := s.toUTF8.data.toList

/-- A context. -/
def sampleCtx : Context := { id := 0 }

/-- A transport that fails every call with `e`. -/
def failingClient (e : GoError) : Client :=
  { callAPI := fun _ _ => ([], some e) }

/-- A transport that answers every call with the bytes `b` and no error. -/
def replyingClient (b : Bytes) : Client :=
  { callAPI := fun _ _ => (b, none) }

/-- A decoder that stores `v` and succeeds. -/
def decodeAs {α : Type} (v : α) : Unmarshal α :=
  fun _ _ => (v, none)

/-- A decoder that leaves the target as it is and fails with `e`, as on
bytes that are not JSON. -/
def rejectWith {α : Type} (e : GoError) : Unmarshal α :=
  fun _ cur => (cur, some e)

/-- A decoder that has written `v` into the target when it fails with `e`,
as on JSON whose first values fit the target and a later one does not. -/
def writeThenFail {α : Type} (v : α) (e : GoError) : Unmarshal α :=
  fun _ _ => (v, some e)

/-- A transport error. -/
def errTimeout : GoError := { msg := "context deadline exceeded" }

/-- A decode error. -/
def errDecode : GoError :=
  { msg := "json: cannot unmarshal number into Go value of type string" }

/-- A filled `AssetDetail`. -/
def sampleAssetDetail : AssetDetail :=
  { MinWithdrawAmount := "0.001", DepositStatus := true, WithdrawFee := "0.0005",
    WithdrawStatus := true, DepositTip := "" }

/-- A filled `UserAssetRecord`. -/
def sampleUserAsset : UserAssetRecord :=
  { Asset := "BTC", Free := "1", Locked := "0", Freeze := "0", Withdrawing := "0",
    Ipoable := "0", BtcValuation := "1" }

/-- A filled `CoinInfo`. -/
def sampleCoin : CoinInfo :=
  { Coin := "BTC", DepositAllEnable := true, Free := "1", Freeze := "0", Ipoable := "0",
    Ipoing := "0", IsLegalMoney := false, Locked := "0", Name := "Bitcoin",
    NetworkList := some [], Storage := "0", Trading := true, WithdrawAllEnable := true,
    Withdrawing := "0" }

/-- The response body of the convert-transfer example. -/
def convertOkBytes : Bytes := bytesOf "\x7b\"tranId\":555,\"status\":\"S\"\x7d"

/-- A response body whose `status` is a number: the decoder stores `tranId`
and then fails on `status`. -/
def convertBadStatusBytes : Bytes := bytesOf "\x7b\"tranId\":555,\"status\":5\x7d"

/-- The empty JSON array. -/
def emptyArrayBytes : Bytes := bytesOf "[]"

/-! ## Setter sequences and the builder's fields -/

theorem lastCall_nil {κ β : Type} (pick : κ → Option β) : lastCall pick [] = none := rfl

theorem lastCall_cons {κ β : Type} (pick : κ → Option β) (c : κ) (cs : List κ) :
    lastCall pick (c :: cs) = (lastCall pick cs).or (pick c) := by
  unfold lastCall
  rw [List.reverse_cons, List.findSome?_append]
  cases h : pick c <;> simp [List.findSome?_cons, h]

theorem lastCall_isSome_iff {κ β : Type} (pick : κ → Option β) (cs : List κ) :
    (lastCall pick cs).isSome = true ↔ ∃ c, c ∈ cs ∧ (pick c).isSome = true := by
  unfold lastCall
  simp [List.findSome?_isSome_iff]

theorem convertTransfer_calls_fields (cs : List ConvertTransferCall) :
    ∀ s : ConvertTransferService,
      (s.calls cs).clientTranId =
          (lastCall ConvertTransferCall.pickClientTranId cs).getD s.clientTranId ∧
      (s.calls cs).asset = (lastCall ConvertTransferCall.pickAsset cs).getD s.asset ∧
      (s.calls cs).amount = (lastCall ConvertTransferCall.pickAmount cs).getD s.amount ∧
      (s.calls cs).targetAsset =
          (lastCall ConvertTransferCall.pickTargetAsset cs).getD s.targetAsset ∧
      (s.calls cs).accountType =
          (lastCall ConvertTransferCall.pickAccountType cs).or s.accountType := by
  induction cs with
  | nil => intro s; simp [ConvertTransferService.calls, lastCall_nil]
  | cons c cs ih =>
    intro s
    have h := ih (s.call c)
    simp only [ConvertTransferService.calls, List.foldl_cons] at h ⊢
    rw [h.1, h.2.1, h.2.2.1, h.2.2.2.1, h.2.2.2.2]
    simp only [lastCall_cons]
    cases c <;>
      simp [ConvertTransferService.call, ConvertTransferService.ClientTranId,
        ConvertTransferService.Asset, ConvertTransferService.Amount,
        ConvertTransferService.TargetAsset, ConvertTransferService.AccountType,
        ConvertTransferCall.pickClientTranId, ConvertTransferCall.pickAsset,
        ConvertTransferCall.pickAmount, ConvertTransferCall.pickTargetAsset,
        ConvertTransferCall.pickAccountType] <;>
      (repeat (first | constructor | (cases lastCall _ cs <;> rfl)))

theorem userAsset_calls_fields (cs : List GetUserAssetCall) :
    ∀ s : GetUserAssetService,
      (s.calls cs).asset = (lastCall GetUserAssetCall.pickAsset cs).or s.asset ∧
      (s.calls cs).needBtcValuation =
          (lastCall GetUserAssetCall.pickNeedBtcValuation cs).getD s.needBtcValuation := by
  induction cs with
  | nil => intro s; simp [GetUserAssetService.calls, lastCall_nil]
  | cons c cs ih =>
    intro s
    have h := ih (s.call c)
    simp only [GetUserAssetService.calls, List.foldl_cons] at h ⊢
    rw [h.1, h.2]
    simp only [lastCall_cons]
    cases c <;>
      simp [GetUserAssetService.call, GetUserAssetService.Asset,
        GetUserAssetService.NeedBtcValuation, GetUserAssetCall.pickAsset,
        GetUserAssetCall.pickNeedBtcValuation] <;>
      (repeat (first | constructor | (cases lastCall _ cs <;> rfl)))

/-! ## Requests built by `Do` -/

theorem assetDetail_requests_Do (s : GetAssetDetailService) (c : Client)
    (json : Unmarshal (GoMap AssetDetail)) (ctx : Context) :
    (s.Do c json ctx).requests =
      [{ method := "GET", endpoint := "/sapi/v1/asset/assetDetail",
         secType := SecType.secTypeSigned,
         params := match s.asset with
           | some a => [("asset", ParamValue.str a)]
           | none => [] }] := by
  cases s with
  | mk asset =>
    cases asset <;>
      simp only [GetAssetDetailService.Do, DoResult.requests, Request.setParam, MethodGet] <;>
      split <;> (try split) <;> simp

theorem allCoinsInfo_requests_Do (s : GetAllCoinsInfoService) (c : Client)
    (json : Unmarshal (GoSlice (Option CoinInfo))) (ctx : Context) :
    (s.Do c json ctx).requests =
      [{ method := "GET", endpoint := "/sapi/v1/capital/config/getall",
         secType := SecType.secTypeSigned, params := [] }] := by
  simp only [GetAllCoinsInfoService.Do, DoResult.requests, MethodGet]
  split <;> (try split) <;> simp

theorem userAsset_requests_Do (s : GetUserAssetService) (c : Client)
    (json : Unmarshal (GoSlice UserAssetRecord)) (ctx : Context) :
    (s.Do c json ctx).requests =
      [{ method := "POST", endpoint := "/sapi/v3/asset/getUserAsset",
         secType := SecType.secTypeSigned,
         params :=
           (match s.asset with
             | some a => [("asset", ParamValue.str a)]
             | none => []) ++
           (if s.needBtcValuation = true then [("needBtcValuation", ParamValue.bool true)]
            else []) }] := by
  cases s with
  | mk asset flag =>
    cases asset <;> cases flag <;>
      simp only [GetUserAssetService.Do, DoResult.requests, Request.setParam, MethodPost] <;>
      split <;> simp

theorem convertTransfer_requests_Do (s : ConvertTransferService) (c : Client)
    (json : Unmarshal ConvertTransferResponse) (ctx : Context) :
    (s.Do c json ctx).requests =
      [{ method := "POST", endpoint := "/sapi/v1/asset/convert",
         secType := SecType.secTypeSigned,
         params :=
           [("clientTranId", ParamValue.str s.clientTranId), ("asset", ParamValue.str s.asset),
            ("amount", ParamValue.int s.amount),
            ("targetAsset", ParamValue.str s.targetAsset)] ++
           (match s.accountType with
             | some a => [("accountType", ParamValue.str a)]
             | none => []) }] := by
  cases s with
  | mk i a n t acc =>
    cases acc <;>
      simp only [ConvertTransferService.Do, DoResult.requests, Request.setParam, MethodPost] <;>
      split <;> simp

/-! ## Parameters of the requests -/

theorem convertTransfer_getParam_spec (s : ConvertTransferService) (k : String) :
    Request.getParam
      { method := "POST", endpoint := "/sapi/v1/asset/convert",
        secType := SecType.secTypeSigned,
        params :=
          [("clientTranId", ParamValue.str s.clientTranId), ("asset", ParamValue.str s.asset),
           ("amount", ParamValue.int s.amount),
           ("targetAsset", ParamValue.str s.targetAsset)] ++
          (match s.accountType with
            | some a => [("accountType", ParamValue.str a)]
            | none => []) } k = s.specParams k := by
  unfold Request.getParam ConvertTransferService.specParams
  by_cases h1 : k = "clientTranId"
  · subst h1; simp [List.lookup]
  by_cases h2 : k = "asset"
  · subst h2; simp [List.lookup]
  by_cases h3 : k = "amount"
  · subst h3; simp [List.lookup]
  by_cases h4 : k = "targetAsset"
  · subst h4; simp [List.lookup]
  by_cases h5 : k = "accountType"
  · subst h5; cases s.accountType <;> simp [List.lookup]
  · cases s.accountType <;>
      simp [List.lookup, h1, h2, h3, h4, h5, beq_eq_false_iff_ne.mpr h1,
        beq_eq_false_iff_ne.mpr h2, beq_eq_false_iff_ne.mpr h3, beq_eq_false_iff_ne.mpr h4,
        beq_eq_false_iff_ne.mpr h5]

theorem userAsset_getParam_spec (s : GetUserAssetService) (k : String) :
    Request.getParam
      { method := "POST", endpoint := "/sapi/v3/asset/getUserAsset",
        secType := SecType.secTypeSigned,
        params :=
          (match s.asset with
            | some a => [("asset", ParamValue.str a)]
            | none => []) ++
          (if s.needBtcValuation = true then [("needBtcValuation", ParamValue.bool true)]
           else []) } k = s.specParams k := by
  unfold Request.getParam GetUserAssetService.specParams
  by_cases h1 : k = "asset"
  · subst h1; cases s.asset <;> cases s.needBtcValuation <;> simp [List.lookup]
  by_cases h2 : k = "needBtcValuation"
  · subst h2; cases s.asset <;> cases s.needBtcValuation <;> simp [List.lookup]
  · cases s.asset <;> cases s.needBtcValuation <;>
      simp [List.lookup, h1, h2, beq_eq_false_iff_ne.mpr h1, beq_eq_false_iff_ne.mpr h2]

/-- C1: for every state of a ConvertTransferService builder, Do hands the
transport one request whose parameter map is exactly: clientTranId, asset,
amount and targetAsset with the builder's field values, accountType with
its value when it is set, and no other key. After any sequence of setter
calls on a new builder each required field holds the argument of the last
call of its setter, the empty string or 0 when there was none, and
accountType is attached exactly when AccountType was called. After
ClientTranId "x1", Asset "BUSD", Amount 100, TargetAsset "USDT" the
parameters are exactly these four. -/
theorem convertTransfer_Do_params :
    (∀ (s : ConvertTransferService) (c : Client) (json : Unmarshal ConvertTransferResponse)
        (ctx : Context),
      ∃ r : Request, (s.Do c json ctx).requests = [r] ∧
        ∀ k, r.getParam k = s.specParams k) ∧
    (∀ cs : List ConvertTransferCall,
      (ConvertTransferService.new.calls cs).clientTranId =
          (lastCall ConvertTransferCall.pickClientTranId cs).getD "" ∧
      (ConvertTransferService.new.calls cs).asset =
          (lastCall ConvertTransferCall.pickAsset cs).getD "" ∧
      (ConvertTransferService.new.calls cs).amount =
          (lastCall ConvertTransferCall.pickAmount cs).getD 0 ∧
      (ConvertTransferService.new.calls cs).targetAsset =
          (lastCall ConvertTransferCall.pickTargetAsset cs).getD "" ∧
      (ConvertTransferService.new.calls cs).accountType =
          lastCall ConvertTransferCall.pickAccountType cs ∧
      (((ConvertTransferService.new.calls cs).accountType).isSome = true ↔
          ∃ v, ConvertTransferCall.AccountType v ∈ cs)) ∧
    (∀ (c : Client) (json : Unmarshal ConvertTransferResponse) (ctx : Context),
      (((((ConvertTransferService.new.ClientTranId "x1").Asset "BUSD").Amount 100).TargetAsset
          "USDT").Do c json ctx).requests =
        [{ method := "POST", endpoint := "/sapi/v1/asset/convert",
           secType := SecType.secTypeSigned,
           params := [("clientTranId", ParamValue.str "x1"), ("asset", ParamValue.str "BUSD"),
                      ("amount", ParamValue.int 100),
                      ("targetAsset", ParamValue.str "USDT")] }]) := by
  refine ⟨?_, ?_, ?_⟩
  · intro s c json ctx
    exact ⟨_, convertTransfer_requests_Do s c json ctx,
      convertTransfer_getParam_spec s⟩
  · intro cs
    have h := convertTransfer_calls_fields cs ConvertTransferService.new
    have hacc : (ConvertTransferService.new.calls cs).accountType =
        lastCall ConvertTransferCall.pickAccountType cs := by
      rw [h.2.2.2.2]; simp [ConvertTransferService.new]
    refine ⟨h.1, h.2.1, h.2.2.1, h.2.2.2.1, hacc, ?_⟩
    rw [hacc, lastCall_isSome_iff]
    constructor
    · rintro ⟨c, hc, hp⟩
      cases c <;> simp [ConvertTransferCall.pickAccountType] at hp
      exact ⟨_, hc⟩
    · rintro ⟨v, hv⟩
      exact ⟨_, hv, rfl⟩
  · intro c json ctx
    rw [convertTransfer_requests_Do]
    rfl

/-- C2: for every string a and every builder state, the request built by
GetAssetDetailService.Do after Asset a has parameter map exactly
asset = a, also for the empty string, and the request built on a builder
on which Asset was never called has an empty parameter map; the two are
different requests for every a. -/
theorem assetDetail_Do_params :
    (∀ (s : GetAssetDetailService) (a : String) (c : Client)
        (json : Unmarshal (GoMap AssetDetail)) (ctx : Context),
      ∃ r : Request, ((s.Asset a).Do c json ctx).requests = [r] ∧
        r.params = [("asset", ParamValue.str a)] ∧
        ∀ k, r.getParam k = if k = "asset" then some (ParamValue.str a) else none) ∧
    (∀ (c : Client) (json : Unmarshal (GoMap AssetDetail)) (ctx : Context),
      ∃ r : Request, (GetAssetDetailService.new.Do c json ctx).requests = [r] ∧
        r.params = [] ∧ ∀ k, r.getParam k = none) ∧
    (∀ (c : Client) (json : Unmarshal (GoMap AssetDetail)) (ctx : Context),
      ((GetAssetDetailService.new.Asset "").Do c json ctx).requests ≠
        (GetAssetDetailService.new.Do c json ctx).requests) := by
  refine ⟨?_, ?_, ?_⟩
  · intro s a c json ctx
    refine ⟨_, assetDetail_requests_Do _ c json ctx, rfl, ?_⟩
    intro k
    by_cases h : k = "asset"
    · subst h; simp [Request.getParam, GetAssetDetailService.Asset, List.lookup]
    · simp [Request.getParam, GetAssetDetailService.Asset, List.lookup, h,
        beq_eq_false_iff_ne.mpr h]
  · intro c json ctx
    refine ⟨_, assetDetail_requests_Do _ c json ctx, rfl, ?_⟩
    intro k
    simp [Request.getParam, GetAssetDetailService.new]
  · intro c json ctx
    rw [assetDetail_requests_Do, assetDetail_requests_Do]
    simp [GetAssetDetailService.new, GetAssetDetailService.Asset]

/-- C3: for every state of a GetUserAssetService builder, Do hands the
transport one request whose parameter map is exactly: asset with its value
when it is set, needBtcValuation with value true when the flag is true,
and no other key. After any sequence of setter calls on a new builder the
flag is true exactly when the last NeedBtcValuation call exists and was
NeedBtcValuation true, and asset is set, to the argument of the last Asset
call, exactly when Asset was called. -/
theorem userAsset_Do_params :
    (∀ (s : GetUserAssetService) (c : Client) (json : Unmarshal (GoSlice UserAssetRecord))
        (ctx : Context),
      ∃ r : Request, (s.Do c json ctx).requests = [r] ∧
        (∀ k, r.getParam k = s.specParams k) ∧
        r.getParam "needBtcValuation" =
          (if s.needBtcValuation = true then some (ParamValue.bool true) else none) ∧
        r.getParam "asset" = s.asset.map ParamValue.str) ∧
    (∀ cs : List GetUserAssetCall,
      ((GetUserAssetService.new.calls cs).needBtcValuation = true ↔
          lastCall GetUserAssetCall.pickNeedBtcValuation cs = some true) ∧
      (GetUserAssetService.new.calls cs).asset = lastCall GetUserAssetCall.pickAsset cs ∧
      (((GetUserAssetService.new.calls cs).asset).isSome = true ↔
          ∃ a, GetUserAssetCall.Asset a ∈ cs)) ∧
    (∀ (c : Client) (json : Unmarshal (GoSlice UserAssetRecord)) (ctx : Context),
      (GetUserAssetService.new.Do c json ctx).requests =
        ((GetUserAssetService.new.NeedBtcValuation false).Do c json ctx).requests ∧
      (((GetUserAssetService.new.NeedBtcValuation true).NeedBtcValuation false).Do c json
          ctx).requests =
        [{ method := "POST", endpoint := "/sapi/v3/asset/getUserAsset",
           secType := SecType.secTypeSigned, params := [] }] ∧
      ((GetUserAssetService.new.NeedBtcValuation true).Do c json ctx).requests =
        [{ method := "POST", endpoint := "/sapi/v3/asset/getUserAsset",
           secType := SecType.secTypeSigned,
           params := [("needBtcValuation", ParamValue.bool true)] }]) := by
  refine ⟨?_, ?_, ?_⟩
  · intro s c json ctx
    refine ⟨_, userAsset_requests_Do s c json ctx,
      userAsset_getParam_spec s, ?_, ?_⟩
    · rw [userAsset_getParam_spec]; simp [GetUserAssetService.specParams]
    · rw [userAsset_getParam_spec]; simp [GetUserAssetService.specParams]
  · intro cs
    have h := userAsset_calls_fields cs GetUserAssetService.new
    have hasset : (GetUserAssetService.new.calls cs).asset =
        lastCall GetUserAssetCall.pickAsset cs := by
      rw [h.1]; simp [GetUserAssetService.new]
    refine ⟨?_, hasset, ?_⟩
    · rw [h.2]
      cases lastCall GetUserAssetCall.pickNeedBtcValuation cs <;>
        simp [GetUserAssetService.new]
    · rw [hasset, lastCall_isSome_iff]
      constructor
      · rintro ⟨c, hc, hp⟩
        cases c <;> simp [GetUserAssetCall.pickAsset] at hp
        exact ⟨_, hc⟩
      · rintro ⟨v, hv⟩
        exact ⟨_, hv, rfl⟩
  · intro c json ctx
    simp only [userAsset_requests_Do]
    refine ⟨rfl, rfl, rfl⟩

/-- C4: for every builder state of each of the four services, also after
any sequence of setter calls, Do hands the transport one request, with the
method, endpoint path and security type of the table: GET
/sapi/v1/asset/assetDetail, GET /sapi/v1/capital/config/getall, POST
/sapi/v3/asset/getUserAsset, POST /sapi/v1/asset/convert, all signed. -/
theorem Do_wire_endpoints :
    (∀ (s : GetAssetDetailService) (cs : List GetAssetDetailCall) (c : Client)
        (json : Unmarshal (GoMap AssetDetail)) (ctx : Context),
      ∃ r : Request, ((s.calls cs).Do c json ctx).requests = [r] ∧
        r.method = "GET" ∧ r.endpoint = "/sapi/v1/asset/assetDetail" ∧
        r.secType = SecType.secTypeSigned) ∧
    (∀ (s : GetAllCoinsInfoService) (c : Client)
        (json : Unmarshal (GoSlice (Option CoinInfo))) (ctx : Context),
      ∃ r : Request, (s.Do c json ctx).requests = [r] ∧
        r.method = "GET" ∧ r.endpoint = "/sapi/v1/capital/config/getall" ∧
        r.secType = SecType.secTypeSigned) ∧
    (∀ (s : GetUserAssetService) (cs : List GetUserAssetCall) (c : Client)
        (json : Unmarshal (GoSlice UserAssetRecord)) (ctx : Context),
      ∃ r : Request, ((s.calls cs).Do c json ctx).requests = [r] ∧
        r.method = "POST" ∧ r.endpoint = "/sapi/v3/asset/getUserAsset" ∧
        r.secType = SecType.secTypeSigned) ∧
    (∀ (s : ConvertTransferService) (cs : List ConvertTransferCall) (c : Client)
        (json : Unmarshal ConvertTransferResponse) (ctx : Context),
      ∃ r : Request, ((s.calls cs).Do c json ctx).requests = [r] ∧
        r.method = "POST" ∧ r.endpoint = "/sapi/v1/asset/convert" ∧
        r.secType = SecType.secTypeSigned) := by
  refine ⟨?_, ?_, ?_, ?_⟩
  · intro s cs c json ctx
    exact ⟨_, assetDetail_requests_Do _ c json ctx, rfl, rfl, rfl⟩
  · intro s c json ctx
    exact ⟨_, allCoinsInfo_requests_Do _ c json ctx, rfl, rfl, rfl⟩
  · intro s cs c json ctx
    exact ⟨_, userAsset_requests_Do _ c json ctx, rfl, rfl, rfl⟩
  · intro s cs c json ctx
    exact ⟨_, convertTransfer_requests_Do _ c json ctx, rfl, rfl, rfl⟩

/-- C9: for every value of the asset field of a GetAllCoinsInfoService
builder, unset or set to any string, Do hands the transport one request
with an empty parameter map; two builders that differ only in asset send
identical requests. -/
theorem allCoinsInfo_asset_never_attached :
    (∀ (asset : Option String) (c : Client) (json : Unmarshal (GoSlice (Option CoinInfo)))
        (ctx : Context),
      ∃ r : Request,
        ((GetAllCoinsInfoService.mk asset).Do c json ctx).requests = [r] ∧
        r.params = [] ∧ ∀ k, r.getParam k = none) ∧
    (∀ (asset asset2 : Option String) (c : Client)
        (json : Unmarshal (GoSlice (Option CoinInfo))) (ctx : Context),
      ((GetAllCoinsInfoService.mk asset).Do c json ctx).requests =
        ((GetAllCoinsInfoService.mk asset2).Do c json ctx).requests ∧
      ((GetAllCoinsInfoService.mk asset).Do c json ctx).trace =
        ((GetAllCoinsInfoService.mk asset2).Do c json ctx).trace) := by
  refine ⟨?_, ?_⟩
  · intro asset c json ctx
    refine ⟨_, allCoinsInfo_requests_Do _ c json ctx, rfl, ?_⟩
    intro k
    simp [Request.getParam]
  · intro asset asset2 c json ctx
    refine ⟨?_, ?_⟩
    · rw [allCoinsInfo_requests_Do, allCoinsInfo_requests_Do]
    · simp only [GetAllCoinsInfoService.Do]
      split <;> (try split) <;> rfl

/-- The builder is unchanged by `GetAssetDetailService.Do`. -/
theorem assetDetail_builder_Do (s : GetAssetDetailService) (c : Client)
    (json : Unmarshal (GoMap AssetDetail)) (ctx : Context) :
    (s.Do c json ctx).builder = s := by
  simp only [GetAssetDetailService.Do]
  split <;> (try split) <;> rfl

/-- The builder is unchanged by `GetAllCoinsInfoService.Do`. -/
theorem allCoinsInfo_builder_Do (s : GetAllCoinsInfoService) (c : Client)
    (json : Unmarshal (GoSlice (Option CoinInfo))) (ctx : Context) :
    (s.Do c json ctx).builder = s := by
  simp only [GetAllCoinsInfoService.Do]
  split <;> (try split) <;> rfl

/-- The builder is unchanged by `GetUserAssetService.Do`. -/
theorem userAsset_builder_Do (s : GetUserAssetService) (c : Client)
    (json : Unmarshal (GoSlice UserAssetRecord)) (ctx : Context) :
    (s.Do c json ctx).builder = s := by
  simp only [GetUserAssetService.Do]
  split <;> rfl

/-- The builder is unchanged by `ConvertTransferService.Do`. -/
theorem convertTransfer_builder_Do (s : ConvertTransferService) (c : Client)
    (json : Unmarshal ConvertTransferResponse) (ctx : Context) :
    (s.Do c json ctx).builder = s := by
  simp only [ConvertTransferService.Do]
  split <;> rfl

/-- C10: for each of the four services and every builder state, Do leaves
every builder field unchanged, whatever the transport and the decoder
answer, and a second Do on the builder it leaves, against any transport and
decoder, hands the transport the same single request (method, endpoint,
security type and parameters) as the first. -/
theorem Do_leaves_builder_unchanged :
    (∀ (s : GetAssetDetailService) (c c2 : Client) (json json2 : Unmarshal (GoMap AssetDetail))
        (ctx ctx2 : Context),
      (s.Do c json ctx).builder = s ∧
      ∃ r : Request, (s.Do c json ctx).requests = [r] ∧
        ((s.Do c json ctx).builder.Do c2 json2 ctx2).requests = [r]) ∧
    (∀ (s : GetAllCoinsInfoService) (c c2 : Client)
        (json json2 : Unmarshal (GoSlice (Option CoinInfo))) (ctx ctx2 : Context),
      (s.Do c json ctx).builder = s ∧
      ∃ r : Request, (s.Do c json ctx).requests = [r] ∧
        ((s.Do c json ctx).builder.Do c2 json2 ctx2).requests = [r]) ∧
    (∀ (s : GetUserAssetService) (c c2 : Client)
        (json json2 : Unmarshal (GoSlice UserAssetRecord)) (ctx ctx2 : Context),
      (s.Do c json ctx).builder = s ∧
      ∃ r : Request, (s.Do c json ctx).requests = [r] ∧
        ((s.Do c json ctx).builder.Do c2 json2 ctx2).requests = [r]) ∧
    (∀ (s : ConvertTransferService) (c c2 : Client)
        (json json2 : Unmarshal ConvertTransferResponse) (ctx ctx2 : Context),
      (s.Do c json ctx).builder = s ∧
      ∃ r : Request, (s.Do c json ctx).requests = [r] ∧
        ((s.Do c json ctx).builder.Do c2 json2 ctx2).requests = [r]) := by
  refine ⟨?_, ?_, ?_, ?_⟩
  · intro s c c2 json json2 ctx ctx2
    refine ⟨assetDetail_builder_Do s c json ctx, _, assetDetail_requests_Do s c json ctx, ?_⟩
    rw [assetDetail_builder_Do, assetDetail_requests_Do]
  · intro s c c2 json json2 ctx ctx2
    refine ⟨allCoinsInfo_builder_Do s c json ctx, _, allCoinsInfo_requests_Do s c json ctx, ?_⟩
    rw [allCoinsInfo_builder_Do, allCoinsInfo_requests_Do]
  · intro s c c2 json json2 ctx ctx2
    refine ⟨userAsset_builder_Do s c json ctx, _, userAsset_requests_Do s c json ctx, ?_⟩
    rw [userAsset_builder_Do, userAsset_requests_Do]
  · intro s c c2 json json2 ctx ctx2
    refine ⟨convertTransfer_builder_Do s c json ctx, _,
      convertTransfer_requests_Do s c json ctx, ?_⟩
    rw [convertTransfer_builder_Do, convertTransfer_requests_Do]

/-! ## Results of `Do` -/

theorem assetDetail_Do_transport_err (s : GetAssetDetailService) (c : Client)
    (json : Unmarshal (GoMap AssetDetail)) (ctx : Context) (e : GoError)
    (hT : ∀ r, r ∈ (s.Do c json ctx).requests → (c.callAPI ctx r).2 = some e) :
    (s.Do c json ctx).res = none ∧ (s.Do c json ctx).err = some e ∧
      (s.Do c json ctx).decoded = [] := by
  have h := hT _ (by rw [assetDetail_requests_Do]; exact List.mem_singleton_self _)
  cases s with
  | mk asset =>
    cases asset <;>
      simp only [GetAssetDetailService.Do, Request.setParam, MethodGet, List.filter_nil,
        List.nil_append] at h ⊢ <;>
      simp [h, DoResult.decoded]

theorem assetDetail_Do_transport_ok (s : GetAssetDetailService) (c : Client)
    (json : Unmarshal (GoMap AssetDetail)) (ctx : Context) (b : Bytes)
    (hT : ∀ r, r ∈ (s.Do c json ctx).requests → c.callAPI ctx r = (b, none)) :
    (s.Do c json ctx).res = (json b (some [])).1 ∧
      (s.Do c json ctx).err = (json b (some [])).2 ∧
      (s.Do c json ctx).decoded = [b] := by
  have h := hT _ (by rw [assetDetail_requests_Do]; exact List.mem_singleton_self _)
  cases s with
  | mk asset =>
    cases asset <;>
      simp only [GetAssetDetailService.Do, Request.setParam, MethodGet, List.filter_nil,
        List.nil_append] at h ⊢ <;>
      simp only [h] <;>
      cases hd : (json b (some [])).2 <;> simp [hd, DoResult.decoded]

theorem allCoinsInfo_Do_transport_err (s : GetAllCoinsInfoService) (c : Client)
    (json : Unmarshal (GoSlice (Option CoinInfo))) (ctx : Context) (e : GoError)
    (hT : ∀ r, r ∈ (s.Do c json ctx).requests → (c.callAPI ctx r).2 = some e) :
    (s.Do c json ctx).res = some [] ∧ (s.Do c json ctx).err = some e ∧
      (s.Do c json ctx).decoded = [] := by
  have h := hT _ (by rw [allCoinsInfo_requests_Do]; exact List.mem_singleton_self _)
  simp only [GetAllCoinsInfoService.Do, MethodGet] at h ⊢
  simp [h, DoResult.decoded]

theorem allCoinsInfo_Do_transport_ok (s : GetAllCoinsInfoService) (c : Client)
    (json : Unmarshal (GoSlice (Option CoinInfo))) (ctx : Context) (b : Bytes)
    (hT : ∀ r, r ∈ (s.Do c json ctx).requests → c.callAPI ctx r = (b, none)) :
    (s.Do c json ctx).res =
        (match (json b (some [])).2 with
          | some _ => some []
          | none => (json b (some [])).1) ∧
      (s.Do c json ctx).err = (json b (some [])).2 ∧
      (s.Do c json ctx).decoded = [b] := by
  have h := hT _ (by rw [allCoinsInfo_requests_Do]; exact List.mem_singleton_self _)
  simp only [GetAllCoinsInfoService.Do, MethodGet] at h ⊢
  simp only [h]
  cases hd : (json b (some [])).2 <;> simp [hd, DoResult.decoded]

theorem userAsset_Do_transport_err (s : GetUserAssetService) (c : Client)
    (json : Unmarshal (GoSlice UserAssetRecord)) (ctx : Context) (e : GoError)
    (hT : ∀ r, r ∈ (s.Do c json ctx).requests → (c.callAPI ctx r).2 = some e) :
    (s.Do c json ctx).res = none ∧ (s.Do c json ctx).err = some e ∧
      (s.Do c json ctx).decoded = [] := by
  have h := hT _ (by rw [userAsset_requests_Do]; exact List.mem_singleton_self _)
  cases s with
  | mk asset flag =>
    cases asset <;> cases flag <;>
      simp only [GetUserAssetService.Do, Request.setParam, MethodPost, List.filter_nil,
        List.nil_append] at h ⊢ <;>
      simp at h <;>
      simp [h, DoResult.decoded]

theorem userAsset_Do_transport_ok (s : GetUserAssetService) (c : Client)
    (json : Unmarshal (GoSlice UserAssetRecord)) (ctx : Context) (b : Bytes)
    (hT : ∀ r, r ∈ (s.Do c json ctx).requests → c.callAPI ctx r = (b, none)) :
    (s.Do c json ctx).res = (json b none).1 ∧
      (s.Do c json ctx).err = (json b none).2 ∧
      (s.Do c json ctx).decoded = [b] := by
  have h := hT _ (by rw [userAsset_requests_Do]; exact List.mem_singleton_self _)
  cases s with
  | mk asset flag =>
    cases asset <;> cases flag <;>
      simp only [GetUserAssetService.Do, Request.setParam, MethodPost, List.filter_nil,
        List.nil_append] at h ⊢ <;>
      simp at h <;>
      simp [h, DoResult.decoded]

theorem convertTransfer_Do_transport_err (s : ConvertTransferService) (c : Client)
    (json : Unmarshal ConvertTransferResponse) (ctx : Context) (e : GoError)
    (hT : ∀ r, r ∈ (s.Do c json ctx).requests → (c.callAPI ctx r).2 = some e) :
    (s.Do c json ctx).res = ConvertTransferResponse.zero ∧ (s.Do c json ctx).err = some e ∧
      (s.Do c json ctx).decoded = [] := by
  have h := hT _ (by rw [convertTransfer_requests_Do]; exact List.mem_singleton_self _)
  cases s with
  | mk i a n t acc =>
    cases acc <;>
      simp only [ConvertTransferService.Do, Request.setParam, MethodPost] at h ⊢ <;>
      simp at h ⊢ <;>
      simp [h, DoResult.decoded]

theorem convertTransfer_Do_transport_ok (s : ConvertTransferService) (c : Client)
    (json : Unmarshal ConvertTransferResponse) (ctx : Context) (b : Bytes)
    (hT : ∀ r, r ∈ (s.Do c json ctx).requests → c.callAPI ctx r = (b, none)) :
    (s.Do c json ctx).res = (json b ConvertTransferResponse.zero).1 ∧
      (s.Do c json ctx).err = (json b ConvertTransferResponse.zero).2 ∧
      (s.Do c json ctx).decoded = [b] := by
  have h := hT _ (by rw [convertTransfer_requests_Do]; exact List.mem_singleton_self _)
  cases s with
  | mk i a n t acc =>
    cases acc <;>
      simp only [ConvertTransferService.Do, Request.setParam, MethodPost] at h ⊢ <;>
      simp at h ⊢ <;>
      simp [h, DoResult.decoded]

/-! ## Error handling -/

/-- C5: for every transport and every decoder, whenever
GetAllCoinsInfoService.Do returns a non-nil error the returned sequence is
the non-nil empty sequence: it is not nil and its length is 0, whatever the
decoder had written before it failed. -/
theorem allCoinsInfo_error_gives_empty (s : GetAllCoinsInfoService) (c : Client)
    (json : Unmarshal (GoSlice (Option CoinInfo))) (ctx : Context)
    (h : (s.Do c json ctx).err ≠ none) :
    (s.Do c json ctx).res = some [] ∧ (s.Do c json ctx).res ≠ none ∧
      GoSlice.len (s.Do c json ctx).res = 0 := by
  have hres : (s.Do c json ctx).res = some [] := by
    simp only [GetAllCoinsInfoService.Do] at h ⊢
    generalize c.callAPI ctx _ = out at h ⊢
    rcases out with ⟨data, err⟩
    cases err with
    | some e => rfl
    | none =>
      simp only at h ⊢
      generalize json data (some []) = dec at h ⊢
      rcases dec with ⟨v, err2⟩
      cases err2 with
      | some e => rfl
      | none => simp at h
  rw [hres]
  exact ⟨rfl, by simp, rfl⟩

/-- Witness of C5: the transport answers, the decoder has stored one coin
when it fails; Do returns the error and the empty non-nil sequence. -/
theorem allCoinsInfo_error_gives_empty_witness :
    ((GetAllCoinsInfoService.mk none).Do (replyingClient emptyArrayBytes)
        (writeThenFail (some [some sampleCoin]) errDecode) sampleCtx).err = some errDecode ∧
    ((GetAllCoinsInfoService.mk none).Do (replyingClient emptyArrayBytes)
        (writeThenFail (some [some sampleCoin]) errDecode) sampleCtx).res = some [] ∧
    ((GetAllCoinsInfoService.mk none).Do (failingClient errTimeout)
        (decodeAs (some [some sampleCoin])) sampleCtx).res = some [] :=
  ⟨rfl,
   (allCoinsInfo_error_gives_empty (GetAllCoinsInfoService.mk none)
      (replyingClient emptyArrayBytes) (writeThenFail (some [some sampleCoin]) errDecode)
      sampleCtx (by decide)).1,
   (allCoinsInfo_error_gives_empty (GetAllCoinsInfoService.mk none)
      (failingClient errTimeout) (decodeAs (some [some sampleCoin]))
      sampleCtx (by decide)).1⟩

/-- Counterexample to C6: with a transport that answers and a decoder that
fails, GetAssetDetailService.Do returns the error with a non-nil map,
GetUserAssetService.Do returns it with the record the decoder had stored,
and ConvertTransferService.Do with the TranId the decoder had stored: none
of the three results is the zero value. -/
theorem Do_decode_error_result_not_zero :
    ((GetAssetDetailService.new.Do (replyingClient (bytesOf "not json"))
        (rejectWith errDecode) sampleCtx).err = some errDecode ∧
     (GetAssetDetailService.new.Do (replyingClient (bytesOf "not json"))
        (rejectWith errDecode) sampleCtx).res = some [] ∧
     (GetAssetDetailService.new.Do (replyingClient (bytesOf "not json"))
        (rejectWith errDecode) sampleCtx).res ≠ none) ∧
    ((GetUserAssetService.new.Do (replyingClient emptyArrayBytes)
        (writeThenFail (some [sampleUserAsset]) errDecode) sampleCtx).err = some errDecode ∧
     (GetUserAssetService.new.Do (replyingClient emptyArrayBytes)
        (writeThenFail (some [sampleUserAsset]) errDecode) sampleCtx).res =
          some [sampleUserAsset] ∧
     (GetUserAssetService.new.Do (replyingClient emptyArrayBytes)
        (writeThenFail (some [sampleUserAsset]) errDecode) sampleCtx).res ≠ none) ∧
    ((ConvertTransferService.new.Do (replyingClient convertBadStatusBytes)
        (writeThenFail { TranId := 555, Status := "" } errDecode) sampleCtx).err =
          some errDecode ∧
     (ConvertTransferService.new.Do (replyingClient convertBadStatusBytes)
        (writeThenFail { TranId := 555, Status := "" } errDecode) sampleCtx).res =
          { TranId := 555, Status := "" } ∧
     (ConvertTransferService.new.Do (replyingClient convertBadStatusBytes)
        (writeThenFail { TranId := 555, Status := "" } errDecode) sampleCtx).res ≠
          ConvertTransferResponse.zero) := by
  refine ⟨⟨rfl, rfl, by decide⟩, ⟨rfl, rfl, by decide⟩, ⟨rfl, rfl, by decide⟩⟩

/-- C6, amended: for GetAssetDetailService.Do, GetUserAssetService.Do and
ConvertTransferService.Do, when the transport returns a non-nil error Do
returns that error, the result is the zero value of its type (nil map, nil
sequence, the zero ConvertTransferResponse) and the decoder is not applied;
when the transport succeeds and the decoder fails, Do returns the decoder's
error together with the result as the decoder left it, the decoder having
been applied once, to the transport's bytes, starting from an empty non-nil
map, from the nil sequence and from the zero response. -/
theorem Do_error_result :
    (∀ (s : GetAssetDetailService) (c : Client) (json : Unmarshal (GoMap AssetDetail))
        (ctx : Context),
      (∀ e : GoError,
        (∀ r, r ∈ (s.Do c json ctx).requests → (c.callAPI ctx r).2 = some e) →
        (s.Do c json ctx).err = some e ∧ (s.Do c json ctx).res = none ∧
          (s.Do c json ctx).decoded = []) ∧
      (∀ (b : Bytes) (d : GoError),
        (∀ r, r ∈ (s.Do c json ctx).requests → c.callAPI ctx r = (b, none)) →
        (json b (some [])).2 = some d →
        (s.Do c json ctx).err = some d ∧ (s.Do c json ctx).res = (json b (some [])).1 ∧
          (s.Do c json ctx).decoded = [b])) ∧
    (∀ (s : GetUserAssetService) (c : Client) (json : Unmarshal (GoSlice UserAssetRecord))
        (ctx : Context),
      (∀ e : GoError,
        (∀ r, r ∈ (s.Do c json ctx).requests → (c.callAPI ctx r).2 = some e) →
        (s.Do c json ctx).err = some e ∧ (s.Do c json ctx).res = none ∧
          (s.Do c json ctx).decoded = []) ∧
      (∀ (b : Bytes) (d : GoError),
        (∀ r, r ∈ (s.Do c json ctx).requests → c.callAPI ctx r = (b, none)) →
        (json b none).2 = some d →
        (s.Do c json ctx).err = some d ∧ (s.Do c json ctx).res = (json b none).1 ∧
          (s.Do c json ctx).decoded = [b])) ∧
    (∀ (s : ConvertTransferService) (c : Client) (json : Unmarshal ConvertTransferResponse)
        (ctx : Context),
      (∀ e : GoError,
        (∀ r, r ∈ (s.Do c json ctx).requests → (c.callAPI ctx r).2 = some e) →
        (s.Do c json ctx).err = some e ∧
          (s.Do c json ctx).res = ConvertTransferResponse.zero ∧
          (s.Do c json ctx).decoded = []) ∧
      (∀ (b : Bytes) (d : GoError),
        (∀ r, r ∈ (s.Do c json ctx).requests → c.callAPI ctx r = (b, none)) →
        (json b ConvertTransferResponse.zero).2 = some d →
        (s.Do c json ctx).err = some d ∧
          (s.Do c json ctx).res = (json b ConvertTransferResponse.zero).1 ∧
          (s.Do c json ctx).decoded = [b])) := by
  refine ⟨?_, ?_, ?_⟩
  · intro s c json ctx
    refine ⟨?_, ?_⟩
    · intro e hT
      have h := assetDetail_Do_transport_err s c json ctx e hT
      exact ⟨h.2.1, h.1, h.2.2⟩
    · intro b d hT hd
      have h := assetDetail_Do_transport_ok s c json ctx b hT
      exact ⟨h.2.1.trans hd, h.1, h.2.2⟩
  · intro s c json ctx
    refine ⟨?_, ?_⟩
    · intro e hT
      have h := userAsset_Do_transport_err s c json ctx e hT
      exact ⟨h.2.1, h.1, h.2.2⟩
    · intro b d hT hd
      have h := userAsset_Do_transport_ok s c json ctx b hT
      exact ⟨h.2.1.trans hd, h.1, h.2.2⟩
  · intro s c json ctx
    refine ⟨?_, ?_⟩
    · intro e hT
      have h := convertTransfer_Do_transport_err s c json ctx e hT
      exact ⟨h.2.1, h.1, h.2.2⟩
    · intro b d hT hd
      have h := convertTransfer_Do_transport_ok s c json ctx b hT
      exact ⟨h.2.1.trans hd, h.1, h.2.2⟩

/-- Witness of the amended C6: a failing transport gives the zero value and
no decoder call, a failing decoder gives what it had stored, after one
decoder call on the transport's bytes. -/
theorem Do_error_result_witness :
    ((GetAssetDetailService.new.Do (failingClient errTimeout)
        (decodeAs (some [("BTC", sampleAssetDetail)])) sampleCtx).err = some errTimeout ∧
     (GetAssetDetailService.new.Do (failingClient errTimeout)
        (decodeAs (some [("BTC", sampleAssetDetail)])) sampleCtx).res = none ∧
     (GetAssetDetailService.new.Do (failingClient errTimeout)
        (decodeAs (some [("BTC", sampleAssetDetail)])) sampleCtx).decoded = []) ∧
    ((GetAssetDetailService.new.Do (replyingClient emptyArrayBytes)
        (writeThenFail (some [("BTC", sampleAssetDetail)]) errDecode) sampleCtx).err =
          some errDecode ∧
     (GetAssetDetailService.new.Do (replyingClient emptyArrayBytes)
        (writeThenFail (some [("BTC", sampleAssetDetail)]) errDecode) sampleCtx).res =
          some [("BTC", sampleAssetDetail)] ∧
     (GetAssetDetailService.new.Do (replyingClient emptyArrayBytes)
        (writeThenFail (some [("BTC", sampleAssetDetail)]) errDecode) sampleCtx).decoded =
          [emptyArrayBytes]) ∧
    ((GetUserAssetService.new.Do (failingClient errTimeout)
        (decodeAs (some [sampleUserAsset])) sampleCtx).err = some errTimeout ∧
     (GetUserAssetService.new.Do (failingClient errTimeout)
        (decodeAs (some [sampleUserAsset])) sampleCtx).res = none ∧
     (GetUserAssetService.new.Do (failingClient errTimeout)
        (decodeAs (some [sampleUserAsset])) sampleCtx).decoded = []) ∧
    ((GetUserAssetService.new.Do (replyingClient emptyArrayBytes)
        (writeThenFail (some [sampleUserAsset]) errDecode) sampleCtx).err = some errDecode ∧
     (GetUserAssetService.new.Do (replyingClient emptyArrayBytes)
        (writeThenFail (some [sampleUserAsset]) errDecode) sampleCtx).res =
          some [sampleUserAsset] ∧
     (GetUserAssetService.new.Do (replyingClient emptyArrayBytes)
        (writeThenFail (some [sampleUserAsset]) errDecode) sampleCtx).decoded =
          [emptyArrayBytes]) ∧
    ((ConvertTransferService.new.Do (failingClient errTimeout)
        (decodeAs { TranId := 555, Status := "S" }) sampleCtx).err = some errTimeout ∧
     (ConvertTransferService.new.Do (failingClient errTimeout)
        (decodeAs { TranId := 555, Status := "S" }) sampleCtx).res =
          ConvertTransferResponse.zero ∧
     (ConvertTransferService.new.Do (failingClient errTimeout)
        (decodeAs { TranId := 555, Status := "S" }) sampleCtx).decoded = []) ∧
    ((ConvertTransferService.new.Do (replyingClient convertBadStatusBytes)
        (writeThenFail { TranId := 555, Status := "" } errDecode) sampleCtx).err =
          some errDecode ∧
     (ConvertTransferService.new.Do (replyingClient convertBadStatusBytes)
        (writeThenFail { TranId := 555, Status := "" } errDecode) sampleCtx).res =
          { TranId := 555, Status := "" } ∧
     (ConvertTransferService.new.Do (replyingClient convertBadStatusBytes)
        (writeThenFail { TranId := 555, Status := "" } errDecode) sampleCtx).decoded =
          [convertBadStatusBytes]) :=
  ⟨(Do_error_result.1 GetAssetDetailService.new (failingClient errTimeout)
      (decodeAs (some [("BTC", sampleAssetDetail)])) sampleCtx).1 errTimeout
      (fun _ _ => rfl),
   (Do_error_result.1 GetAssetDetailService.new (replyingClient emptyArrayBytes)
      (writeThenFail (some [("BTC", sampleAssetDetail)]) errDecode) sampleCtx).2
      emptyArrayBytes errDecode (fun _ _ => rfl) rfl,
   (Do_error_result.2.1 GetUserAssetService.new (failingClient errTimeout)
      (decodeAs (some [sampleUserAsset])) sampleCtx).1 errTimeout (fun _ _ => rfl),
   (Do_error_result.2.1 GetUserAssetService.new (replyingClient emptyArrayBytes)
      (writeThenFail (some [sampleUserAsset]) errDecode) sampleCtx).2
      emptyArrayBytes errDecode (fun _ _ => rfl) rfl,
   (Do_error_result.2.2 ConvertTransferService.new (failingClient errTimeout)
      (decodeAs { TranId := 555, Status := "S" }) sampleCtx).1 errTimeout (fun _ _ => rfl),
   (Do_error_result.2.2 ConvertTransferService.new (replyingClient convertBadStatusBytes)
      (writeThenFail { TranId := 555, Status := "" } errDecode) sampleCtx).2
      convertBadStatusBytes errDecode (fun _ _ => rfl) rfl⟩

/-- C7: for each of the four Do operations: if the transport call returns
the error e, Do returns exactly e and the decoder is not applied; if the
transport returns bytes without error and decoding them fails with d, Do
returns exactly d, the decoder having been applied once, to those bytes. -/
theorem Do_error_unchanged :
    (∀ (s : GetAssetDetailService) (c : Client) (json : Unmarshal (GoMap AssetDetail)) (ctx : Context),
      (∀ e : GoError,
        (∀ r, r ∈ (s.Do c json ctx).requests → (c.callAPI ctx r).2 = some e) →
        (s.Do c json ctx).err = some e ∧ (s.Do c json ctx).decoded = []) ∧
      (∀ (b : Bytes) (d : GoError),
        (∀ r, r ∈ (s.Do c json ctx).requests → c.callAPI ctx r = (b, none)) →
        (json b (some [])).2 = some d →
        (s.Do c json ctx).err = some d ∧ (s.Do c json ctx).decoded = [b])) ∧
    (∀ (s : GetAllCoinsInfoService) (c : Client) (json : Unmarshal (GoSlice (Option CoinInfo))) (ctx : Context),
      (∀ e : GoError,
        (∀ r, r ∈ (s.Do c json ctx).requests → (c.callAPI ctx r).2 = some e) →
        (s.Do c json ctx).err = some e ∧ (s.Do c json ctx).decoded = []) ∧
      (∀ (b : Bytes) (d : GoError),
        (∀ r, r ∈ (s.Do c json ctx).requests → c.callAPI ctx r = (b, none)) →
        (json b (some [])).2 = some d →
        (s.Do c json ctx).err = some d ∧ (s.Do c json ctx).decoded = [b])) ∧
    (∀ (s : GetUserAssetService) (c : Client) (json : Unmarshal (GoSlice UserAssetRecord)) (ctx : Context),
      (∀ e : GoError,
        (∀ r, r ∈ (s.Do c json ctx).requests → (c.callAPI ctx r).2 = some e) →
        (s.Do c json ctx).err = some e ∧ (s.Do c json ctx).decoded = []) ∧
      (∀ (b : Bytes) (d : GoError),
        (∀ r, r ∈ (s.Do c json ctx).requests → c.callAPI ctx r = (b, none)) →
        (json b none).2 = some d →
        (s.Do c json ctx).err = some d ∧ (s.Do c json ctx).decoded = [b])) ∧
    (∀ (s : ConvertTransferService) (c : Client) (json : Unmarshal (ConvertTransferResponse)) (ctx : Context),
      (∀ e : GoError,
        (∀ r, r ∈ (s.Do c json ctx).requests → (c.callAPI ctx r).2 = some e) →
        (s.Do c json ctx).err = some e ∧ (s.Do c json ctx).decoded = []) ∧
      (∀ (b : Bytes) (d : GoError),
        (∀ r, r ∈ (s.Do c json ctx).requests → c.callAPI ctx r = (b, none)) →
        (json b ConvertTransferResponse.zero).2 = some d →
        (s.Do c json ctx).err = some d ∧ (s.Do c json ctx).decoded = [b])) := by
  refine ⟨?_, ?_, ?_, ?_⟩
  · intro s c json ctx
    refine ⟨?_, ?_⟩
    · intro e hT
      exact (assetDetail_Do_transport_err s c json ctx e hT).2
    · intro b d hT hd
      have h := assetDetail_Do_transport_ok s c json ctx b hT
      exact ⟨h.2.1.trans hd, h.2.2⟩
  · intro s c json ctx
    refine ⟨?_, ?_⟩
    · intro e hT
      exact (allCoinsInfo_Do_transport_err s c json ctx e hT).2
    · intro b d hT hd
      have h := allCoinsInfo_Do_transport_ok s c json ctx b hT
      exact ⟨h.2.1.trans hd, h.2.2⟩
  · intro s c json ctx
    refine ⟨?_, ?_⟩
    · intro e hT
      exact (userAsset_Do_transport_err s c json ctx e hT).2
    · intro b d hT hd
      have h := userAsset_Do_transport_ok s c json ctx b hT
      exact ⟨h.2.1.trans hd, h.2.2⟩
  · intro s c json ctx
    refine ⟨?_, ?_⟩
    · intro e hT
      exact (convertTransfer_Do_transport_err s c json ctx e hT).2
    · intro b d hT hd
      have h := convertTransfer_Do_transport_ok s c json ctx b hT
      exact ⟨h.2.1.trans hd, h.2.2⟩

/-- Witness of C7: each operation against a failing transport, and against
a transport that answers with a failing decoder. -/
theorem Do_error_unchanged_witness :
    ((GetAssetDetailService.new.Do (failingClient errTimeout)
        (decodeAs (some [("BTC", sampleAssetDetail)])) sampleCtx).err = some errTimeout ∧
     (GetAssetDetailService.new.Do (failingClient errTimeout)
        (decodeAs (some [("BTC", sampleAssetDetail)])) sampleCtx).decoded = []) ∧
    ((GetAssetDetailService.new.Do (replyingClient (bytesOf "not json"))
        (rejectWith errDecode) sampleCtx).err = some errDecode ∧
     (GetAssetDetailService.new.Do (replyingClient (bytesOf "not json"))
        (rejectWith errDecode) sampleCtx).decoded = [bytesOf "not json"]) ∧
    ((GetAllCoinsInfoService.mk none).Do (failingClient errTimeout)
        (decodeAs (some [some sampleCoin])) sampleCtx).err = some errTimeout ∧
    ((GetAllCoinsInfoService.mk none).Do (replyingClient (bytesOf "not json"))
        (rejectWith errDecode) sampleCtx).err = some errDecode ∧
    (GetUserAssetService.new.Do (failingClient errTimeout)
        (decodeAs (some [sampleUserAsset])) sampleCtx).err = some errTimeout ∧
    (GetUserAssetService.new.Do (replyingClient (bytesOf "not json"))
        (rejectWith errDecode) sampleCtx).err = some errDecode ∧
    (ConvertTransferService.new.Do (failingClient errTimeout)
        (decodeAs { TranId := 555, Status := "S" }) sampleCtx).err = some errTimeout ∧
    (ConvertTransferService.new.Do (replyingClient convertBadStatusBytes)
        (writeThenFail { TranId := 555, Status := "" } errDecode) sampleCtx).err =
          some errDecode :=
  ⟨(Do_error_unchanged.1 GetAssetDetailService.new (failingClient errTimeout)
      (decodeAs (some [("BTC", sampleAssetDetail)])) sampleCtx).1 errTimeout
      (fun _ _ => rfl),
   (Do_error_unchanged.1 GetAssetDetailService.new (replyingClient (bytesOf "not json"))
      (rejectWith errDecode) sampleCtx).2 (bytesOf "not json") errDecode
      (fun _ _ => rfl) rfl,
   ((Do_error_unchanged.2.1 (GetAllCoinsInfoService.mk none) (failingClient errTimeout)
      (decodeAs (some [some sampleCoin])) sampleCtx).1 errTimeout (fun _ _ => rfl)).1,
   ((Do_error_unchanged.2.1 (GetAllCoinsInfoService.mk none)
      (replyingClient (bytesOf "not json")) (rejectWith errDecode) sampleCtx).2
      (bytesOf "not json") errDecode (fun _ _ => rfl) rfl).1,
   ((Do_error_unchanged.2.2.1 GetUserAssetService.new (failingClient errTimeout)
      (decodeAs (some [sampleUserAsset])) sampleCtx).1 errTimeout (fun _ _ => rfl)).1,
   ((Do_error_unchanged.2.2.1 GetUserAssetService.new (replyingClient (bytesOf "not json"))
      (rejectWith errDecode) sampleCtx).2 (bytesOf "not json") errDecode
      (fun _ _ => rfl) rfl).1,
   ((Do_error_unchanged.2.2.2 ConvertTransferService.new (failingClient errTimeout)
      (decodeAs { TranId := 555, Status := "S" }) sampleCtx).1 errTimeout
      (fun _ _ => rfl)).1,
   ((Do_error_unchanged.2.2.2 ConvertTransferService.new
      (replyingClient convertBadStatusBytes)
      (writeThenFail { TranId := 555, Status := "" } errDecode) sampleCtx).2
      convertBadStatusBytes errDecode (fun _ _ => rfl) rfl).1⟩

/-! ## Successful decoding -/

/-- C8: for each of the four Do operations and every byte string b: if the
transport returns b without error and the decoder, applied to b and the
initial value of the result, succeeds with value v, then Do returns v, the
same sequence in the same order, with a nil error. So a decoder that reads
the convert-transfer example body as TranId 555, Status "S" makes Do return
that response, and one that reads the empty array as the empty sequence
makes GetAllCoinsInfoService.Do return an empty sequence with nil error. -/
theorem Do_returns_decoded_value :
    (∀ (s : GetAssetDetailService) (c : Client) (json : Unmarshal (GoMap AssetDetail)) (ctx : Context)
        (b : Bytes) (v : GoMap AssetDetail),
      (∀ r, r ∈ (s.Do c json ctx).requests → c.callAPI ctx r = (b, none)) →
      json b (some []) = (v, none) →
      (s.Do c json ctx).res = v ∧ (s.Do c json ctx).err = none) ∧
    (∀ (s : GetAllCoinsInfoService) (c : Client) (json : Unmarshal (GoSlice (Option CoinInfo))) (ctx : Context)
        (b : Bytes) (v : GoSlice (Option CoinInfo)),
      (∀ r, r ∈ (s.Do c json ctx).requests → c.callAPI ctx r = (b, none)) →
      json b (some []) = (v, none) →
      (s.Do c json ctx).res = v ∧ (s.Do c json ctx).err = none) ∧
    (∀ (s : GetUserAssetService) (c : Client) (json : Unmarshal (GoSlice UserAssetRecord)) (ctx : Context)
        (b : Bytes) (v : GoSlice UserAssetRecord),
      (∀ r, r ∈ (s.Do c json ctx).requests → c.callAPI ctx r = (b, none)) →
      json b none = (v, none) →
      (s.Do c json ctx).res = v ∧ (s.Do c json ctx).err = none) ∧
    (∀ (s : ConvertTransferService) (c : Client) (json : Unmarshal (ConvertTransferResponse)) (ctx : Context)
        (b : Bytes) (v : ConvertTransferResponse),
      (∀ r, r ∈ (s.Do c json ctx).requests → c.callAPI ctx r = (b, none)) →
      json b ConvertTransferResponse.zero = (v, none) →
      (s.Do c json ctx).res = v ∧ (s.Do c json ctx).err = none) ∧
    (∀ (s : ConvertTransferService) (c : Client) (json : Unmarshal ConvertTransferResponse)
        (ctx : Context),
      (∀ r, r ∈ (s.Do c json ctx).requests → c.callAPI ctx r = (convertOkBytes, none)) →
      json convertOkBytes ConvertTransferResponse.zero =
        ({ TranId := 555, Status := "S" }, none) →
      (s.Do c json ctx).res = { TranId := 555, Status := "S" } ∧
        (s.Do c json ctx).err = none) ∧
    (∀ (s : GetAllCoinsInfoService) (c : Client)
        (json : Unmarshal (GoSlice (Option CoinInfo))) (ctx : Context),
      (∀ r, r ∈ (s.Do c json ctx).requests → c.callAPI ctx r = (emptyArrayBytes, none)) →
      json emptyArrayBytes (some []) = (some [], none) →
      (s.Do c json ctx).res = some [] ∧ GoSlice.len (s.Do c json ctx).res = 0 ∧
        (s.Do c json ctx).err = none) := by
  refine ⟨?_, ?_, ?_, ?_, ?_, ?_⟩
  · intro s c json ctx b v hT hd
    have h := assetDetail_Do_transport_ok s c json ctx b hT
    rw [hd] at h
    exact ⟨h.1, h.2.1⟩
  · intro s c json ctx b v hT hd
    have h := allCoinsInfo_Do_transport_ok s c json ctx b hT
    rw [hd] at h
    exact ⟨h.1, h.2.1⟩
  · intro s c json ctx b v hT hd
    have h := userAsset_Do_transport_ok s c json ctx b hT
    rw [hd] at h
    exact ⟨h.1, h.2.1⟩
  · intro s c json ctx b v hT hd
    have h := convertTransfer_Do_transport_ok s c json ctx b hT
    rw [hd] at h
    exact ⟨h.1, h.2.1⟩
  · intro s c json ctx hT hd
    have h := convertTransfer_Do_transport_ok s c json ctx convertOkBytes hT
    rw [hd] at h
    exact ⟨h.1, h.2.1⟩
  · intro s c json ctx hT hd
    have h := allCoinsInfo_Do_transport_ok s c json ctx emptyArrayBytes hT
    rw [hd] at h
    refine ⟨h.1, ?_, h.2.1⟩
    rw [h.1]
    rfl

/-- Witness of C8: each operation against a transport that answers and a
decoder that succeeds. -/
theorem Do_returns_decoded_value_witness :
    ((GetAssetDetailService.new.Do (replyingClient emptyArrayBytes)
        (decodeAs (some [("BTC", sampleAssetDetail)])) sampleCtx).res =
          some [("BTC", sampleAssetDetail)] ∧
     (GetAssetDetailService.new.Do (replyingClient emptyArrayBytes)
        (decodeAs (some [("BTC", sampleAssetDetail)])) sampleCtx).err = none) ∧
    (((GetAllCoinsInfoService.mk none).Do (replyingClient emptyArrayBytes)
        (decodeAs (some [some sampleCoin, none])) sampleCtx).res =
          some [some sampleCoin, none] ∧
     ((GetAllCoinsInfoService.mk none).Do (replyingClient emptyArrayBytes)
        (decodeAs (some [some sampleCoin, none])) sampleCtx).err = none) ∧
    ((GetUserAssetService.new.Do (replyingClient emptyArrayBytes)
        (decodeAs (some [sampleUserAsset])) sampleCtx).res = some [sampleUserAsset] ∧
     (GetUserAssetService.new.Do (replyingClient emptyArrayBytes)
        (decodeAs (some [sampleUserAsset])) sampleCtx).err = none) ∧
    ((ConvertTransferService.new.Do (replyingClient convertOkBytes)
        (decodeAs { TranId := 555, Status := "S" }) sampleCtx).res =
          { TranId := 555, Status := "S" } ∧
     (ConvertTransferService.new.Do (replyingClient convertOkBytes)
        (decodeAs { TranId := 555, Status := "S" }) sampleCtx).err = none) ∧
    ((ConvertTransferService.new.Do (replyingClient convertOkBytes)
        (decodeAs { TranId := 555, Status := "S" }) sampleCtx).res =
          { TranId := 555, Status := "S" } ∧
     (ConvertTransferService.new.Do (replyingClient convertOkBytes)
        (decodeAs { TranId := 555, Status := "S" }) sampleCtx).err = none) ∧
    (((GetAllCoinsInfoService.mk none).Do (replyingClient emptyArrayBytes)
        (decodeAs (some [])) sampleCtx).res = some [] ∧
     GoSlice.len ((GetAllCoinsInfoService.mk none).Do (replyingClient emptyArrayBytes)
        (decodeAs (some [])) sampleCtx).res = 0 ∧
     ((GetAllCoinsInfoService.mk none).Do (replyingClient emptyArrayBytes)
        (decodeAs (some [])) sampleCtx).err = none) :=
  ⟨Do_returns_decoded_value.1 GetAssetDetailService.new (replyingClient emptyArrayBytes)
      (decodeAs (some [("BTC", sampleAssetDetail)])) sampleCtx emptyArrayBytes
      (some [("BTC", sampleAssetDetail)]) (fun _ _ => rfl) rfl,
   Do_returns_decoded_value.2.1 (GetAllCoinsInfoService.mk none)
      (replyingClient emptyArrayBytes) (decodeAs (some [some sampleCoin, none])) sampleCtx
      emptyArrayBytes (some [some sampleCoin, none]) (fun _ _ => rfl) rfl,
   Do_returns_decoded_value.2.2.1 GetUserAssetService.new (replyingClient emptyArrayBytes)
      (decodeAs (some [sampleUserAsset])) sampleCtx emptyArrayBytes
      (some [sampleUserAsset]) (fun _ _ => rfl) rfl,
   Do_returns_decoded_value.2.2.2.1 ConvertTransferService.new
      (replyingClient convertOkBytes) (decodeAs { TranId := 555, Status := "S" }) sampleCtx
      convertOkBytes { TranId := 555, Status := "S" } (fun _ _ => rfl) rfl,
   Do_returns_decoded_value.2.2.2.2.1 ConvertTransferService.new
      (replyingClient convertOkBytes) (decodeAs { TranId := 555, Status := "S" }) sampleCtx
      (fun _ _ => rfl) rfl,
   Do_returns_decoded_value.2.2.2.2.2 (GetAllCoinsInfoService.mk none)
      (replyingClient emptyArrayBytes) (decodeAs (some [])) sampleCtx
      (fun _ _ => rfl) rfl⟩

end Binance
